import Mathlib

/-!
Verification of the payload encoder of the qr-code-builder repository.

The embedding translates, from the TypeScript source:
* `generateQRString` and its helpers (`QRDataInput.tsx`), the per-template
  payload encoder;
* `buildQROptions` and the update-effect length guard (`QRPreview.tsx`).

JavaScript strings are modelled as Lean `String` (well-formed Unicode).
The host platform functions used by the source are modelled as follows:
* `String.prototype.replace` with a string pattern removes the first
  occurrence only (`removeFirstChar`); with a `/.../g` regex over a
  character class it filters characters (`stripNonDigits`, `removeDashes`).
* `encodeURIComponent` percent-encodes the UTF-8 bytes of every character
  outside the ECMA-262 unreserved set.
* The `Date` pipeline of `getNextDay` (`new Date(dateOnly)`,
  `setDate(getDate()+1)`, `toISOString`) is modelled for a host in the UTC
  zone: parsing succeeds exactly on syntactically valid `YYYY-MM-DD`
  calendar dates (`parseDateOnly`); adding one day is the Gregorian
  successor (`nextDate`); `toISOString` prints four-digit years, or the
  expanded `+YYYYYY` form beyond the year 9999 (`isoDateChars`); an invalid
  date makes `toISOString` throw a `RangeError`, modelled as `Except.error`.
-/

deriving instance DecidableEq for Except

namespace QRBuilder

/-! ## String helpers modelling the JavaScript platform -/

/-- Model of `s.replace(c, '')` with a single-character string pattern:
JavaScript removes only the first occurrence. -/
def removeFirstChar (c : Char) : List Char → List Char
  | [] => []
  | x :: xs => if x = c then xs else x :: removeFirstChar c xs

/-- Model of `s.replace('@', '')` on the username fields. -/
def removeFirstAt (s : String) : String :=
  String.mk (removeFirstChar '@' s.toList)

/-- Model of `s.replace(/[^0-9]/g, '')`. -/
def stripNonDigits (s : String) : String :=
  String.mk (s.toList.filter Char.isDigit)

/-- Model of the global regex replace removing every dash character
(`replace` with the global dash pattern and an empty replacement). -/
def removeDashes (s : String) : String :=
  String.mk (s.toList.filter (fun c => c != '-'))

/-- Model of `date.split('T')[0]`: everything before the first `T`
(the whole string when no `T` occurs). -/
def datePart (s : String) : String :=
  String.mk (s.toList.takeWhile (fun c => c != 'T'))

/-- The ECMA-262 trimming character set: WhiteSpace (tab, vertical tab,
form feed, space, no-break space, zero-width no-break space and the
Unicode space separators) and LineTerminator (line feed, carriage return,
line separator, paragraph separator). -/
def jsWhitespace (c : Char) : Bool :=
  c.toNat = 9 || c.toNat = 10 || c.toNat = 11 || c.toNat = 12 || c.toNat = 13
    || c.toNat = 32 || c.toNat = 160 || c.toNat = 5760
    || (8192 ≤ c.toNat && c.toNat ≤ 8202) || c.toNat = 8232 || c.toNat = 8233
    || c.toNat = 8239 || c.toNat = 8287 || c.toNat = 12288 || c.toNat = 65279

/-- Model of `String.prototype.trim`: strip the ECMA-262 whitespace set
from both ends. -/
def jsTrim (s : String) : String :=
  String.mk (((s.toList.dropWhile jsWhitespace).reverse.dropWhile jsWhitespace).reverse)

/-- Model of the JavaScript `length` of a string: the number of UTF-16
code units, counting characters beyond the Basic Multilingual Plane
twice. -/
def utf16Length (s : String) : Nat :=
  (s.toList.map (fun c => if c.toNat < 0x10000 then 1 else 2)).sum

/-- Model of `Array.prototype.join(sep)`. -/
def joinSep (sep : String) : List String → String
  | [] => ""
  | [x] => x
  | x :: y :: xs => x ++ sep ++ joinSep sep (y :: xs)

/-- Characters left unescaped by `encodeURIComponent` (ECMA-262
`uriUnescaped`: alphanumerics and `- _ . ! ~ * ' ( )`; the apostrophe is
code point 39). -/
def uriUnescaped (c : Char) : Bool :=
  (('A' ≤ c && c ≤ 'Z') || ('a' ≤ c && c ≤ 'z') || ('0' ≤ c && c ≤ '9')
    || c == '-' || c == '_' || c == '.' || c == '!' || c == '~'
    || c == '*' || c.toNat == 39 || c == '(' || c == ')')

/-- UTF-8 bytes of a Unicode scalar value. -/
def utf8Bytes (n : Nat) : List Nat :=
  if n < 0x80 then [n]
  else if n < 0x800 then [0xC0 + n / 0x40, 0x80 + n % 0x40]
  else if n < 0x10000 then
    [0xE0 + n / 0x1000, 0x80 + (n / 0x40) % 0x40, 0x80 + n % 0x40]
  else
    [0xF0 + n / 0x40000, 0x80 + (n / 0x1000) % 0x40,
      0x80 + (n / 0x40) % 0x40, 0x80 + n % 0x40]

/-- Upper-case hexadecimal digit. -/
def hexChar (n : Nat) : Char :=
  match n with
  | 0 => '0' | 1 => '1' | 2 => '2' | 3 => '3' | 4 => '4'
  | 5 => '5' | 6 => '6' | 7 => '7' | 8 => '8' | 9 => '9'
  | 10 => 'A' | 11 => 'B' | 12 => 'C' | 13 => 'D' | 14 => 'E' | _ => 'F'

/-- Percent-escape of one character. -/
def percentEscape (c : Char) : List Char :=
  (utf8Bytes c.toNat).foldr
    (fun b acc => '%' :: hexChar (b / 16) :: hexChar (b % 16) :: acc) []

/-- Model of the ECMA-262 `encodeURIComponent` builtin. -/
def encodeURIComponent (s : String) : String :=
  String.mk (s.toList.foldr
    (fun c acc => if uriUnescaped c then c :: acc else percentEscape c ++ acc) [])

/-! ## Gregorian-calendar model of the `Date` pipeline -/

/-- Gregorian leap year. -/
def isLeapYear (y : Nat) : Prop :=
  y % 4 = 0 ∧ (y % 100 ≠ 0 ∨ y % 400 = 0)

instance (y : Nat) : Decidable (isLeapYear y) := by
  unfold isLeapYear; infer_instance

/-- Length of a month. -/
def daysInMonth (y m : Nat) : Nat :=
  if m = 2 then (if isLeapYear y then 29 else 28)
  else if m = 4 ∨ m = 6 ∨ m = 9 ∨ m = 11 then 30
  else 31

/-- A civil date. -/
structure YMD where
  year : Nat
  month : Nat
  day : Nat
deriving DecidableEq, Repr

/-- A syntactically valid calendar date. -/
def validYMD (p : YMD) : Prop :=
  1 ≤ p.month ∧ p.month ≤ 12 ∧ 1 ≤ p.day ∧ p.day ≤ daysInMonth p.year p.month

instance (p : YMD) : Decidable (validYMD p) := by
  unfold validYMD; infer_instance

/-- Days of the years before year `y` (year 0 is a leap year). -/
def daysBeforeYear (y : Nat) : Nat :=
  365 * y + (y + 3) / 4 - (y + 99) / 100 + (y + 399) / 400

/-- Days of the months of year `y` before month `m`. -/
def daysBeforeMonth (y m : Nat) : Nat :=
  (match m with
    | 1 => 0 | 2 => 31 | 3 => 59 | 4 => 90 | 5 => 120 | 6 => 151
    | 7 => 181 | 8 => 212 | 9 => 243 | 10 => 273 | 11 => 304 | _ => 334)
  + (if 3 ≤ m ∧ isLeapYear y then 1 else 0)

/-- Ordinal number of a civil date: days elapsed since 0000-01-01. -/
def dayOrdinal (p : YMD) : Nat :=
  daysBeforeYear p.year + daysBeforeMonth p.year p.month + (p.day - 1)

/-- Model of `setDate(getDate() + 1)` on a valid date in a UTC host:
the Gregorian successor. -/
def nextDate (p : YMD) : YMD :=
  if p.day < daysInMonth p.year p.month then ⟨p.year, p.month, p.day + 1⟩
  else if p.month < 12 then ⟨p.year, p.month + 1, 1⟩
  else ⟨p.year + 1, 1, 1⟩

/-- Numeric value of a decimal digit character. -/
def digitVal (c : Char) : Nat := c.toNat - 48

/-- Model of `new Date(dateOnly)` on a date-only string in a UTC host:
succeeds exactly on syntactically valid `YYYY-MM-DD` calendar dates; every
other string is modelled as an Invalid Date (`none`). -/
def parseDateOnly (s : String) : Option YMD :=
  match s.toList with
  | [y1, y2, y3, y4, h1, m1, m2, h2, d1, d2] =>
    if y1.isDigit && y2.isDigit && y3.isDigit && y4.isDigit
        && h1 == '-' && m1.isDigit && m2.isDigit && h2 == '-'
        && d1.isDigit && d2.isDigit then
      let y := ((digitVal y1 * 10 + digitVal y2) * 10 + digitVal y3) * 10 + digitVal y4
      let m := digitVal m1 * 10 + digitVal m2
      let d := digitVal d1 * 10 + digitVal d2
      if 1 ≤ m ∧ m ≤ 12 ∧ 1 ≤ d ∧ d ≤ daysInMonth y m then some ⟨y, m, d⟩
      else none
    else none
  | _ => none

/-- Decimal digit character of `n % 10`. -/
def digitChar (n : Nat) : Char :=
  match n % 10 with
  | 0 => '0' | 1 => '1' | 2 => '2' | 3 => '3' | 4 => '4'
  | 5 => '5' | 6 => '6' | 7 => '7' | 8 => '8' | _ => '9'

/-- Two-digit zero-padded decimal rendering (values below 100). -/
def pad2 (n : Nat) : List Char := [digitChar (n / 10), digitChar n]

/-- Four-digit zero-padded decimal rendering (values below 10000). -/
def pad4 (n : Nat) : List Char :=
  [digitChar (n / 1000), digitChar (n / 100), digitChar (n / 10), digitChar n]

/-- Six-digit zero-padded decimal rendering (values below 1000000). -/
def pad6 (n : Nat) : List Char :=
  [digitChar (n / 100000), digitChar (n / 10000), digitChar (n / 1000),
    digitChar (n / 100), digitChar (n / 10), digitChar n]

/-- Date part of `Date.prototype.toISOString`: `YYYY-MM-DD`, or the
expanded `+YYYYYY-MM-DD` form beyond the year 9999 (ECMA-262). -/
def isoDateChars (p : YMD) : List Char :=
  (if p.year ≤ 9999 then pad4 p.year else '+' :: pad6 p.year)
    ++ '-' :: pad2 p.month ++ '-' :: pad2 p.day

/-- The `YYYYMMDD` rendering of a date (years below 10000). -/
def yyyymmdd (p : YMD) : String :=
  String.mk (pad4 p.year ++ pad2 p.month ++ pad2 p.day)

/-! ## Field Records (types/qr.ts) -/

/-- `URLData`. -/
structure URLData where
  url : String
deriving DecidableEq, Repr

/-- `VCardData`. -/
structure VCardData where
  firstName : String
  lastName : String
  organization : String
  title : String
  phone : String
  email : String
  website : String
  address : String
  city : String
  state : String
  zip : String
  country : String
deriving DecidableEq, Repr

/-- `WiFiData`; the encryption select holds `WPA`, `WEP` or `nopass`. -/
structure WiFiData where
  ssid : String
  password : String
  encryption : String
  hidden : Bool
deriving DecidableEq, Repr

/-- `EmailData`. -/
structure EmailData where
  email : String
  subject : String
  body : String
deriving DecidableEq, Repr

/-- `SMSData` as used by the encoder and the form (country code select,
phone input, message textarea). -/
structure SMSData where
  countryCode : String
  phone : String
  message : String
deriving DecidableEq, Repr

/-- `PhoneData` as used by the encoder and the form. -/
structure PhoneData where
  countryCode : String
  phone : String
deriving DecidableEq, Repr

/-- `CalendarData`. -/
structure CalendarData where
  title : String
  location : String
  description : String
  startDate : String
  endDate : String
  allDay : Bool
deriving DecidableEq, Repr

/-- `LocationData`. -/
structure LocationData where
  latitude : String
  longitude : String
  label : String
deriving DecidableEq, Repr

/-- `WhatsAppData` as used by the encoder and the form. -/
structure WhatsAppData where
  countryCode : String
  phone : String
  message : String
deriving DecidableEq, Repr

/-- `TelegramData` as used by the encoder and the form (username input and
prefilled-message textarea); an absent message reads as the empty string. -/
structure TelegramData where
  username : String
  message : String
deriving DecidableEq, Repr

/-- `SocialMediaData`. -/
structure SocialMediaData where
  username : String
deriving DecidableEq, Repr

/-- `PayPalData`; the optional `amount` and `currency` fields are modelled
as strings, an absent value reading as the empty string (both are falsy). -/
structure PayPalData where
  username : String
  amount : String
  currency : String
deriving DecidableEq, Repr

/-- `BitcoinData`; optional fields modelled as for `PayPalData`. -/
structure BitcoinData where
  address : String
  amount : String
  label : String
deriving DecidableEq, Repr

/-- `QRTemplateType`: the closed enumeration of Template Kinds. -/
inductive QRTemplateType where
  | url | vcard | wifi | email | sms | calendar | location | phone
  | whatsapp | telegram | instagram | twitter | linkedin | tiktok
  | youtube | facebook | snapchat | paypal | bitcoin
deriving DecidableEq, Repr

/-- `QRTemplateData` as the tagged union the application maintains: each
Template Kind is paired with its own Field Record shape (the caller
`getDataForType` always hands `generateQRString` the record matching the
selected kind). -/
inductive QRTemplateData where
  | url (u : URLData)
  | vcard (v : VCardData)
  | wifi (w : WiFiData)
  | email (e : EmailData)
  | sms (s : SMSData)
  | calendar (c : CalendarData)
  | location (l : LocationData)
  | phone (p : PhoneData)
  | whatsapp (w : WhatsAppData)
  | telegram (t : TelegramData)
  | instagram (s : SocialMediaData)
  | twitter (s : SocialMediaData)
  | linkedin (s : SocialMediaData)
  | tiktok (s : SocialMediaData)
  | youtube (s : SocialMediaData)
  | facebook (s : SocialMediaData)
  | snapchat (s : SocialMediaData)
  | paypal (p : PayPalData)
  | bitcoin (b : BitcoinData)
deriving DecidableEq, Repr

/-- The Template Kind of a tagged record. -/
def kindOf : QRTemplateData → QRTemplateType
  | .url _ => .url
  | .vcard _ => .vcard
  | .wifi _ => .wifi
  | .email _ => .email
  | .sms _ => .sms
  | .calendar _ => .calendar
  | .location _ => .location
  | .phone _ => .phone
  | .whatsapp _ => .whatsapp
  | .telegram _ => .telegram
  | .instagram _ => .instagram
  | .twitter _ => .twitter
  | .linkedin _ => .linkedin
  | .tiktok _ => .tiktok
  | .youtube _ => .youtube
  | .facebook _ => .facebook
  | .snapchat _ => .snapchat
  | .paypal _ => .paypal
  | .bitcoin _ => .bitcoin

/-! ## The payload encoder (QRDataInput.tsx, `generateQRString`) -/

/-- `formatDateOnly` of the calendar case: date-only part, dashes
removed. -/
def formatDateOnly (date : String) : String :=
  if date = "" then "" else removeDashes (datePart date)

/-- `formatDateTime` of the calendar case: dashes removed, first colon
removed, `00` seconds appended (the `replace` of `T` by `T` in the source
is the identity and is not modelled). -/
def formatDateTime (date : String) : String :=
  if date = "" then ""
  else String.mk (removeFirstChar ':' (removeDashes date).toList) ++ "00"

/-- `getNextDay` of the calendar case: `toISOString` of the parsed
date-only part advanced by one day, dashes removed; an unparseable date
makes `toISOString` throw a `RangeError` (`Invalid time value`). -/
def getNextDay (date : String) : Except String String :=
  if date = "" then .ok ""
  else
    match parseDateOnly (datePart date) with
    | none => .error "Invalid time value"
    | some p => .ok (String.mk ((isoDateChars (nextDate p)).filter (fun c => c != '-')))

/-- The `lines` array of the vcard case, after the truthiness filter. -/
def vcardLines (v : VCardData) : List String :=
  (["BEGIN:VCARD",
    "VERSION:3.0",
    if v.firstName ≠ "" ∨ v.lastName ≠ "" then
      "N:" ++ v.lastName ++ ";" ++ v.firstName ++ ";;;" else "",
    if v.firstName ≠ "" ∨ v.lastName ≠ "" then
      jsTrim ("FN:" ++ v.firstName ++ " " ++ v.lastName) else "",
    if v.organization ≠ "" then "ORG:" ++ v.organization else "",
    if v.title ≠ "" then "TITLE:" ++ v.title else "",
    if v.phone ≠ "" then "TEL:" ++ v.phone else "",
    if v.email ≠ "" then "EMAIL:" ++ v.email else "",
    if v.website ≠ "" then "URL:" ++ v.website else "",
    if v.address ≠ "" ∨ v.city ≠ "" ∨ v.state ≠ "" ∨ v.zip ≠ "" ∨ v.country ≠ "" then
      "ADR:;;" ++ v.address ++ ";" ++ v.city ++ ";" ++ v.state ++ ";"
        ++ v.zip ++ ";" ++ v.country
    else "",
    "END:VCARD"]).filter (fun l => l != "")

/-- The `lines` array of the calendar case before the date lines: the
fixed header, the summary, then the optional location and description
lines. -/
def calendarBase (c : CalendarData) : List String :=
  ["BEGIN:VCALENDAR", "VERSION:2.0", "BEGIN:VEVENT", "SUMMARY:" ++ c.title]
    ++ (if c.location ≠ "" then ["LOCATION:" ++ c.location] else [])
    ++ (if c.description ≠ "" then ["DESCRIPTION:" ++ c.description] else [])

/-- The full `lines` array of the calendar case (title known non-empty):
the base lines, the conditional date lines of the all-day or timed branch,
and the closing lines.  The all-day branch propagates the `getNextDay`
exception. -/
def calendarLines (c : CalendarData) : Except String (List String) :=
  if c.allDay then
    if c.endDate = "" then
      .ok (calendarBase c
        ++ (if c.startDate ≠ "" then
              ["DTSTART;VALUE=DATE:" ++ formatDateOnly c.startDate] else [])
        ++ ["END:VEVENT", "END:VCALENDAR"])
    else
      match getNextDay c.endDate with
      | .error e => .error e
      | .ok n => .ok (calendarBase c
          ++ (if c.startDate ≠ "" then
                ["DTSTART;VALUE=DATE:" ++ formatDateOnly c.startDate] else [])
          ++ ["DTEND;VALUE=DATE:" ++ n]
          ++ ["END:VEVENT", "END:VCALENDAR"])
  else
    .ok (calendarBase c
      ++ (if c.startDate ≠ "" then ["DTSTART:" ++ formatDateTime c.startDate] else [])
      ++ (if c.endDate ≠ "" then ["DTEND:" ++ formatDateTime c.endDate] else [])
      ++ ["END:VEVENT", "END:VCALENDAR"])

/-- The `params` array of the bitcoin case. -/
def bitcoinParams (b : BitcoinData) : List String :=
  (if b.amount ≠ "" then ["amount=" ++ b.amount] else [])
    ++ (if b.label ≠ "" then ["label=" ++ encodeURIComponent b.label] else [])

/-- The bitcoin URL: query appended only when some parameter is present. -/
def bitcoinURL (b : BitcoinData) : String :=
  "bitcoin:" ++ b.address
    ++ (if bitcoinParams b = [] then "" else "?" ++ joinSep "&" (bitcoinParams b))

/-- `generateQRString`: the per-template payload encoder. A thrown
exception is modelled as `Except.error`; every other path returns the
payload string (possibly empty). -/
def generateQRString : QRTemplateData → Except String String
  | .url u => .ok (if u.url = "" then "" else u.url)
  | .vcard v => .ok (joinSep "\n" (vcardLines v))
  | .wifi w => .ok (if w.ssid = "" then ""
      else "WIFI:T:" ++ w.encryption ++ ";S:" ++ w.ssid ++ ";P:" ++ w.password
        ++ ";H:" ++ (if w.hidden then "true" else "false") ++ ";;")
  | .email e => .ok (if e.email = "" then ""
      else "mailto:" ++ e.email ++ "?subject=" ++ encodeURIComponent e.subject
        ++ "&body=" ++ encodeURIComponent e.body)
  | .sms s => .ok (if s.phone = "" then ""
      else "sms:" ++ s.countryCode ++ stripNonDigits s.phone
        ++ (if s.message ≠ "" then "?body=" ++ encodeURIComponent s.message else ""))
  | .phone p => .ok (if p.phone = "" then ""
      else "tel:" ++ p.countryCode ++ stripNonDigits p.phone)
  | .calendar c =>
      if c.title = "" then .ok ""
      else
        match calendarLines c with
        | .error e => .error e
        | .ok lines => .ok (joinSep "\n" lines)
  | .location l => .ok (if l.latitude = "" ∨ l.longitude = "" then ""
      else "geo:" ++ l.latitude ++ "," ++ l.longitude
        ++ (if l.label ≠ "" then "?q=" ++ encodeURIComponent l.label else ""))
  | .whatsapp w => .ok (if w.phone = "" then ""
      else "https://wa.me/" ++ stripNonDigits (w.countryCode ++ w.phone)
        ++ (if w.message ≠ "" then "?text=" ++ encodeURIComponent w.message else ""))
  | .telegram t => .ok (if t.username = "" then ""
      else if t.message ≠ "" then
        "https://t.me/" ++ removeFirstAt t.username ++ "?text="
          ++ encodeURIComponent t.message
      else "https://t.me/" ++ removeFirstAt t.username)
  | .instagram s => .ok (if s.username = "" then ""
      else "https://instagram.com/" ++ removeFirstAt s.username)
  | .twitter s => .ok (if s.username = "" then ""
      else "https://twitter.com/" ++ removeFirstAt s.username)
  | .linkedin s => .ok (if s.username = "" then ""
      else "https://linkedin.com/in/" ++ s.username)
  | .tiktok s => .ok (if s.username = "" then ""
      else "https://tiktok.com/@" ++ removeFirstAt s.username)
  | .youtube s => .ok (if s.username = "" then ""
      else "https://youtube.com/@" ++ removeFirstAt s.username)
  | .facebook s => .ok (if s.username = "" then ""
      else "https://facebook.com/" ++ s.username)
  | .snapchat s => .ok (if s.username = "" then ""
      else "https://snapchat.com/add/" ++ s.username)
  | .paypal p => .ok (if p.username = "" then ""
      else "https://paypal.me/" ++ p.username
        ++ (if p.amount ≠ "" then
              "/" ++ p.amount ++ (if p.currency ≠ "" then p.currency else "")
            else ""))
  | .bitcoin b => .ok (if b.address = "" then "" else bitcoinURL b)

/-! ## Per-kind default records (types/qr.ts) -/

/-- The per-kind default Field Records of types/qr.ts: all string fields
empty except `defaultPayPalData.currency`, booleans false, wifi encryption
`WPA`.  The calendar defaults carry empty dates and an unset title. -/
def defaultData : QRTemplateType → QRTemplateData
  | .url => .url ⟨""⟩
  | .vcard => .vcard ⟨"", "", "", "", "", "", "", "", "", "", "", ""⟩
  | .wifi => .wifi ⟨"", "", "WPA", false⟩
  | .email => .email ⟨"", "", ""⟩
  | .sms => .sms ⟨"", "", ""⟩
  | .calendar => .calendar ⟨"", "", "", "", "", false⟩
  | .location => .location ⟨"", "", ""⟩
  | .phone => .phone ⟨"", ""⟩
  | .whatsapp => .whatsapp ⟨"", "", ""⟩
  | .telegram => .telegram ⟨"", ""⟩
  | .instagram => .instagram ⟨""⟩
  | .twitter => .twitter ⟨""⟩
  | .linkedin => .linkedin ⟨""⟩
  | .tiktok => .tiktok ⟨""⟩
  | .youtube => .youtube ⟨""⟩
  | .facebook => .facebook ⟨""⟩
  | .snapchat => .snapchat ⟨""⟩
  | .paypal => .paypal ⟨"", "", "EUR"⟩
  | .bitcoin => .bitcoin ⟨"", "", ""⟩

/-- The required fields of a kind are all empty (the fields each encoder
branch checks before producing a payload); the vcard kind has none. -/
def requiredEmpty : QRTemplateData → Prop
  | .url u => u.url = ""
  | .vcard _ => True
  | .wifi w => w.ssid = ""
  | .email e => e.email = ""
  | .sms s => s.phone = ""
  | .calendar c => c.title = ""
  | .location l => l.latitude = "" ∧ l.longitude = ""
  | .phone p => p.phone = ""
  | .whatsapp w => w.phone = ""
  | .telegram t => t.username = ""
  | .instagram s => s.username = ""
  | .twitter s => s.username = ""
  | .linkedin s => s.username = ""
  | .tiktok s => s.username = ""
  | .youtube s => s.username = ""
  | .facebook s => s.username = ""
  | .snapchat s => s.username = ""
  | .paypal p => p.username = ""
  | .bitcoin b => b.address = ""

instance (d : QRTemplateData) : Decidable (requiredEmpty d) := by
  cases d <;> (unfold requiredEmpty; infer_instance)

/-- The calendar all-day date precondition under which the encoder cannot
throw: a non-empty end date has a parseable date-only part.  Records of
every other kind satisfy it trivially. -/
def calendarDatesOk : QRTemplateData → Prop
  | .calendar c =>
      c.title ≠ "" → c.allDay = true → c.endDate ≠ "" →
        (parseDateOnly (datePart c.endDate)).isSome = true
  | _ => True

instance (d : QRTemplateData) : Decidable (calendarDatesOk d) := by
  cases d <;> (unfold calendarDatesOk; infer_instance)

/-! ## The preview layer (QRPreview.tsx) -/

/-- `GradientConfig` of types/qr.ts; JavaScript numbers are modelled as
rationals. -/
structure GradientConfig where
  enabled : Bool
  gtype : String
  colorStops : List (ℚ × String)
  rotation : ℚ
deriving DecidableEq, Repr

/-- `QROptions` of types/qr.ts: the application state handed to the
preview component. -/
structure QROptionsState where
  data : String
  size : ℚ
  margin : ℚ
  errorCorrectionLevel : String
  dotColor : String
  dotGradient : GradientConfig
  dotType : String
  cornerSquareColor : String
  cornerSquareType : String
  cornerDotColor : String
  cornerDotType : String
  backgroundColor : String
  transparentBackground : Bool
  image : String
  imageSize : ℚ
  imageMargin : ℚ
deriving DecidableEq, Repr

/-- The fill of `dotsOptions`: a gradient object when the gradient is
enabled, a plain color otherwise (the source spreads one of the two). -/
inductive DotsFill where
  | gradient (gtype : String) (rotation : ℚ) (colorStops : List (ℚ × String))
  | color (c : String)
deriving DecidableEq, Repr

/-- The options record handed to the QR-rendering collaborator
(`qr-code-styling`), as assembled by `buildQROptions`. -/
structure RenderOptions where
  width : ℚ
  height : ℚ
  margin : ℚ
  data : String
  errorCorrectionLevel : String
  dotsType : String
  dotsFill : DotsFill
  cornersSquareType : String
  cornersSquareColor : String
  cornersDotType : String
  cornersDotColor : String
  backgroundColor : Option String
  imageMargin : ℚ
  imageSize : ℚ
  image : Option String
deriving DecidableEq, Repr

/-- `buildQROptions`: builds the rendering collaborator's options from the
application state; the data field falls back to a single space when the
payload is empty. -/
def buildQROptions (o : QROptionsState) : RenderOptions where
  width := o.size
  height := o.size
  margin := o.margin
  data := if o.data = "" then " " else o.data
  errorCorrectionLevel := o.errorCorrectionLevel
  dotsType := o.dotType
  dotsFill :=
    if o.dotGradient.enabled then
      .gradient o.dotGradient.gtype o.dotGradient.rotation o.dotGradient.colorStops
    else .color o.dotColor
  cornersSquareType := o.cornerSquareType
  cornersSquareColor := o.cornerSquareColor
  cornersDotType := o.cornerDotType
  cornersDotColor := o.cornerDotColor
  backgroundColor := if o.transparentBackground then none else some o.backgroundColor
  imageMargin := o.imageMargin
  imageSize := o.imageSize / (3 / 10)
  image := if o.image = "" then none else some o.image

/-- The per-error-correction-level data cap of the update effect. -/
def maxLengthFor (level : String) : Nat :=
  if level = "L" then 2953
  else if level = "M" then 2331
  else if level = "Q" then 1663
  else 1273

/-- Outcome of the preview update effect: either the content-too-long
error is set and the rendering collaborator is not updated, or the error
is cleared and `update` is invoked with the fresh options. -/
inductive UpdateOutcome where
  | tooLong (max : Nat) (level : String)
  | updated (opts : RenderOptions)
deriving DecidableEq, Repr

/-- The update effect of QRPreview: guards the data length (the
JavaScript `.length`, counting UTF-16 code units) against the per-level
cap before invoking `update` on the rendering collaborator. -/
def updateEffect (o : QROptionsState) : UpdateOutcome :=
  let qrOptions := buildQROptions o
  let dataLength := utf16Length o.data
  let maxLength := maxLengthFor o.errorCorrectionLevel
  if dataLength > maxLength then .tooLong maxLength o.errorCorrectionLevel
  else .updated qrOptions

/-- The default `QROptions` state of types/qr.ts (data initially empty). -/
def defaultQROptionsState : QROptionsState where
  data := ""
  size := 300
  margin := 10
  errorCorrectionLevel := "M"
  dotColor := "#000000"
  dotGradient :=
    { enabled := false, gtype := "linear",
      colorStops := [(0, "#000000"), (1, "#4a90d9")], rotation := 0 }
  dotType := "square"
  cornerSquareColor := "#000000"
  cornerSquareType := "square"
  cornerDotColor := "#000000"
  cornerDotType := "square"
  backgroundColor := "#ffffff"
  transparentBackground := false
  image := ""
  imageSize := 1 / 4
  imageMargin := 5

/-- The bitcoin query string as the inclusion policy words it: each
parameter present exactly when its backing field is non-empty, joined with
a single ampersand behind a single question mark. -/
def bitcoinQuerySpec (b : BitcoinData) : String :=
  if b.amount ≠ "" ∧ b.label ≠ "" then
    "?amount=" ++ b.amount ++ "&label=" ++ encodeURIComponent b.label
  else if b.amount ≠ "" then "?amount=" ++ b.amount
  else if b.label ≠ "" then "?label=" ++ encodeURIComponent b.label
  else ""

/-- The vCard line list as the inclusion policy words it: two fixed
header lines, then each optional line present exactly when its backing
field group is non-empty (the `N`/`FN` pair gated on either name part,
`ADR` on any address part), with the `FN` line whitespace-trimmed after
interpolation, then the fixed closing line. -/
def vcardLinesSpec (v : VCardData) : List String :=
  "BEGIN:VCARD" :: "VERSION:3.0" ::
    ((if v.firstName ≠ "" ∨ v.lastName ≠ "" then
        ["N:" ++ v.lastName ++ ";" ++ v.firstName ++ ";;;"] else [])
    ++ ((if v.firstName ≠ "" ∨ v.lastName ≠ "" then
        [jsTrim ("FN:" ++ v.firstName ++ " " ++ v.lastName)] else [])
    ++ ((if v.organization ≠ "" then ["ORG:" ++ v.organization] else [])
    ++ ((if v.title ≠ "" then ["TITLE:" ++ v.title] else [])
    ++ ((if v.phone ≠ "" then ["TEL:" ++ v.phone] else [])
    ++ ((if v.email ≠ "" then ["EMAIL:" ++ v.email] else [])
    ++ ((if v.website ≠ "" then ["URL:" ++ v.website] else [])
    ++ ((if v.address ≠ "" ∨ v.city ≠ "" ∨ v.state ≠ "" ∨ v.zip ≠ "" ∨ v.country ≠ "" then
        ["ADR:;;" ++ v.address ++ ";" ++ v.city ++ ";" ++ v.state ++ ";"
          ++ v.zip ++ ";" ++ v.country] else [])
    ++ ["END:VCARD"]))))))))

/-- The fixed payload head of each Template Kind other than url. -/
def schemeOf : QRTemplateType → String
  | .url => ""
  | .vcard => "BEGIN:VCARD"
  | .wifi => "WIFI:T:"
  | .email => "mailto:"
  | .sms => "sms:"
  | .calendar => "BEGIN:VCALENDAR"
  | .location => "geo:"
  | .phone => "tel:"
  | .whatsapp => "https://wa.me/"
  | .telegram => "https://t.me/"
  | .instagram => "https://instagram.com/"
  | .twitter => "https://twitter.com/"
  | .linkedin => "https://linkedin.com/in/"
  | .tiktok => "https://tiktok.com/@"
  | .youtube => "https://youtube.com/@"
  | .facebook => "https://facebook.com/"
  | .snapchat => "https://snapchat.com/add/"
  | .paypal => "https://paypal.me/"
  | .bitcoin => "bitcoin:"


/-! ## Calendar arithmetic lemmas -/

/-- A successful parse yields a syntactically valid calendar date. -/
theorem parseDateOnly_valid {s : String} {p : YMD}
    (h : parseDateOnly s = some p) : validYMD p := by
  unfold parseDateOnly at h
  split at h
  · split at h
    · simp only [] at h
      split at h
      · rename_i hcond
        injection h with h
        subst h
        exact hcond
      · exact absurd h (by simp)
    · exact absurd h (by simp)
  · exact absurd h (by simp)

/-- Every month has at least 28 days. -/
theorem daysInMonth_ge (y m : Nat) : 28 ≤ daysInMonth y m := by
  unfold daysInMonth
  split
  · split <;> omega
  · split <;> omega

/-- Cumulative month lengths: the days before month `m + 1` are the days
before month `m` plus the length of month `m`, for `1 ≤ m ≤ 11`. -/
theorem daysBeforeMonth_succ (y m : Nat) (h1 : 1 ≤ m) (h2 : m < 12) :
    daysBeforeMonth y (m + 1) = daysBeforeMonth y m + daysInMonth y m := by
  interval_cases m <;>
    by_cases hl : isLeapYear y <;>
      simp [daysBeforeMonth, daysInMonth, hl]

set_option maxHeartbeats 2000000 in
/-- Cumulative year lengths: one more year adds 365 or 366 days. -/
theorem daysBeforeYear_succ (y : Nat) :
    daysBeforeYear (y + 1) = daysBeforeYear y + (if isLeapYear y then 366 else 365) := by
  by_cases hl : isLeapYear y
  · rw [if_pos hl]
    unfold isLeapYear at hl
    unfold daysBeforeYear
    omega
  · rw [if_neg hl]
    unfold isLeapYear at hl
    push_neg at hl
    unfold daysBeforeYear
    by_cases a : y % 4 = 0
    · obtain ⟨b, c⟩ := hl a
      omega
    · omega

/-- The Gregorian successor advances the day ordinal by exactly one. -/
theorem dayOrdinal_nextDate (p : YMD) (hv : validYMD p) :
    dayOrdinal (nextDate p) = dayOrdinal p + 1 := by
  obtain ⟨hm1, hm2, hd1, hd2⟩ := hv
  by_cases h1 : p.day < daysInMonth p.year p.month
  · simp only [nextDate, h1, if_true, dayOrdinal]
    omega
  · have hd : p.day = daysInMonth p.year p.month := by omega
    by_cases h2 : p.month < 12
    · simp only [nextDate, h1, h2, if_false, if_true, dayOrdinal]
      have hdm := daysBeforeMonth_succ p.year p.month hm1 h2
      have h28 := daysInMonth_ge p.year p.month
      omega
    · have hm : p.month = 12 := by omega
      have hdim : daysInMonth p.year 12 = 31 := by simp [daysInMonth]
      have hd31 : p.day = 31 := by rw [hm, hdim] at hd; exact hd
      have hnd : nextDate p = ⟨p.year + 1, 1, 1⟩ := by
        unfold nextDate
        rw [hm, hd31, hdim]
        simp
      rw [hnd]
      simp only [dayOrdinal, hm, hd31]
      have hy := daysBeforeYear_succ p.year
      have hbm : daysBeforeMonth p.year 12
          = 334 + (if isLeapYear p.year then 1 else 0) := by
        by_cases hl : isLeapYear p.year <;> simp [daysBeforeMonth, hl]
      have hbm1 : daysBeforeMonth (p.year + 1) 1 = 0 := by
        simp [daysBeforeMonth]
      by_cases hl : isLeapYear p.year <;>
        simp only [hl, if_true, if_false] at hy hbm <;> omega

/-- The Gregorian successor of a valid date is a valid date. -/
theorem validYMD_nextDate (p : YMD) (hv : validYMD p) : validYMD (nextDate p) := by
  obtain ⟨hm1, hm2, hd1, hd2⟩ := hv
  by_cases h1 : p.day < daysInMonth p.year p.month
  · have hnd : nextDate p = ⟨p.year, p.month, p.day + 1⟩ := by
      unfold nextDate; rw [if_pos h1]
    rw [hnd]
    exact ⟨hm1, hm2, show 1 ≤ p.day + 1 by omega,
      show p.day + 1 ≤ daysInMonth p.year p.month by omega⟩
  · by_cases h2 : p.month < 12
    · have hnd : nextDate p = ⟨p.year, p.month + 1, 1⟩ := by
        unfold nextDate; rw [if_neg h1, if_pos h2]
      rw [hnd]
      have h28 := daysInMonth_ge p.year (p.month + 1)
      exact ⟨show 1 ≤ p.month + 1 by omega, show p.month + 1 ≤ 12 by omega,
        le_refl 1, show 1 ≤ daysInMonth p.year (p.month + 1) by omega⟩
    · have hnd : nextDate p = ⟨p.year + 1, 1, 1⟩ := by
        unfold nextDate; rw [if_neg h1, if_neg h2]
      rw [hnd]
      have h28 := daysInMonth_ge (p.year + 1) 1
      exact ⟨le_refl 1, show (1 : Nat) ≤ 12 by omega, le_refl 1,
        show 1 ≤ daysInMonth (p.year + 1) 1 by omega⟩

/-- Digit characters are not dashes. -/
theorem digitChar_ne_dash (n : Nat) : (digitChar n != '-') = true := by
  unfold digitChar
  split <;> rfl

/-- For years below 10000, removing the dashes from the ISO date rendering
yields the eight-digit `YYYYMMDD` form. -/
theorem filter_dash_isoDateChars (p : YMD) (hy : p.year ≤ 9999) :
    String.mk ((isoDateChars p).filter (fun c => c != '-')) = yyyymmdd p := by
  simp only [isoDateChars, hy, if_true, yyyymmdd, pad4, pad2]
  simp [List.filter, digitChar_ne_dash]

/-! ## Shared helper lemmas -/

/-- A separator-join of a non-empty list extends its head. -/
theorem joinSep_cons_ex (sep a : String) (l : List String) :
    ∃ r, joinSep sep (a :: l) = a ++ r := by
  cases l with
  | nil => exact ⟨"", by simp [joinSep]⟩
  | cons b bs =>
      exact ⟨sep ++ joinSep sep (b :: bs), by simp [joinSep, String.append_assoc]⟩

/-- Removing the first occurrence of an absent character is the
identity. -/
theorem removeFirstChar_not_mem (c : Char) (l : List Char)
    (h : ∀ x ∈ l, x ≠ c) : removeFirstChar c l = l := by
  induction l with
  | nil => rfl
  | cons x xs ih =>
      unfold removeFirstChar
      rw [if_neg (h x (by simp))]
      rw [ih (fun y hy => h y (by simp [hy]))]

/-- Rebuilding a string from its character list is the identity. -/
theorem mk_toList (s : String) : String.mk s.toList = s := rfl

/-- An append with a non-empty left factor is non-empty. -/
theorem append_ne_empty_left (a b : String) (ha : a ≠ "") : a ++ b ≠ "" := by
  intro h
  apply ha
  have hd : a.data ++ b.data = [] := by
    have h2 := congrArg String.data h
    rwa [String.data_append] at h2
  exact String.ext (List.append_eq_nil.mp hd).1

/-- An append with a non-empty right factor is non-empty. -/
theorem append_ne_empty_right (a b : String) (hb : b ≠ "") : a ++ b ≠ "" := by
  intro h
  apply hb
  have hd : a.data ++ b.data = [] := by
    have h2 := congrArg String.data h
    rwa [String.data_append] at h2
  exact String.ext (List.append_eq_nil.mp hd).2

/-- A character violating the predicate survives `dropWhile`. -/
theorem mem_dropWhile_of_neg {p : Char → Bool} {c : Char} :
    ∀ {l : List Char}, c ∈ l → p c = false → c ∈ l.dropWhile p := by
  intro l
  induction l with
  | nil => intro h _; cases h
  | cons x xs ih =>
      intro hmem hc
      by_cases hx : p x = true
      · rw [List.dropWhile_cons_of_pos hx]
        rcases List.mem_cons.mp hmem with hcx | hm
        · rw [hcx] at hc
          rw [hc] at hx
          cases hx
        · exact ih hm hc
      · rw [List.dropWhile_cons_of_neg hx]
        exact hmem

/-- A list holding a character that violates the predicate does not drop
to nil. -/
theorem dropWhile_ne_nil_of_mem {p : Char → Bool} {c : Char} {l : List Char}
    (h : c ∈ l) (hc : p c = false) : l.dropWhile p ≠ [] := by
  intro hnil
  have hmem := mem_dropWhile_of_neg h hc
  rw [hnil] at hmem
  cases hmem

/-- A string holding a non-whitespace character does not trim to the
empty string. -/
theorem jsTrim_ne_empty (s : String) (c : Char) (hc : c ∈ s.toList)
    (hw : jsWhitespace c = false) : jsTrim s ≠ "" := by
  intro h
  have hdata : (((s.toList.dropWhile jsWhitespace).reverse.dropWhile
      jsWhitespace).reverse) = [] := congrArg String.data h
  rw [List.reverse_eq_nil_iff] at hdata
  have h1 : c ∈ s.toList.dropWhile jsWhitespace := mem_dropWhile_of_neg hc hw
  have h2 : c ∈ (s.toList.dropWhile jsWhitespace).reverse := List.mem_reverse.mpr h1
  exact dropWhile_ne_nil_of_mem h2 hw hdata

/-- The truthiness filter keeps a non-empty head line. -/
theorem filter_cons_entry (x : String) (t : List String) (hx : x ≠ "") :
    List.filter (fun l => l != "") (x :: t)
      = x :: List.filter (fun l => l != "") t := by
  rw [List.filter_cons, if_pos (bne_iff_ne.mpr hx)]

/-- The truthiness filter turns a conditionally present entry into a
conditional singleton, for entries that are non-empty whenever
present. -/
theorem filter_cons_ite (c : Prop) [Decidable c] (x : String) (t : List String)
    (hx : c → x ≠ "") :
    List.filter (fun l => l != "") ((if c then x else "") :: t)
      = (if c then [x] else []) ++ List.filter (fun l => l != "") t := by
  by_cases h : c
  · rw [if_pos h, if_pos h, filter_cons_entry x t (hx h)]
    rfl
  · rw [if_neg h, if_neg h, List.filter_cons, if_neg (by simp)]
    rfl

/-- The coded vCard construction (truthiness filter over conditional
lines) equals the inclusion-policy form (conditional singletons). -/
theorem vcardLines_eq_spec (v : VCardData) : vcardLines v = vcardLinesSpec v := by
  unfold vcardLines vcardLinesSpec
  rw [filter_cons_entry _ _ (by decide)]
  rw [filter_cons_entry _ _ (by decide)]
  rw [filter_cons_ite _ _ _ (fun _ => append_ne_empty_right _ _ (by decide))]
  rw [filter_cons_ite _ _ _ (fun _ => jsTrim_ne_empty _ 'F'
    (by
      simp only [String.toList, String.data_append, List.mem_append]
      exact Or.inl (Or.inl (Or.inl (by decide))))
    (by decide))]
  rw [filter_cons_ite _ _ _ (fun _ => append_ne_empty_left _ _ (by decide))]
  rw [filter_cons_ite _ _ _ (fun _ => append_ne_empty_left _ _ (by decide))]
  rw [filter_cons_ite _ _ _ (fun _ => append_ne_empty_left _ _ (by decide))]
  rw [filter_cons_ite _ _ _ (fun _ => append_ne_empty_left _ _ (by decide))]
  rw [filter_cons_ite _ _ _ (fun _ => append_ne_empty_left _ _ (by decide))]
  rw [filter_cons_ite _ _ _ (fun _ =>
    append_ne_empty_left _ _ (append_ne_empty_right _ _ (by decide)))]
  rw [filter_cons_entry _ _ (by decide), List.filter_nil]

/-! ## Claims -/

/-- C5: for every sms record with non-empty phone, the payload is `sms:`,
the country code verbatim, the phone with every non-digit removed, and the
`?body=` URL-encoded message suffix exactly when the message is
non-empty. -/
theorem C5_sms_payload (s : SMSData) (h : s.phone ≠ "") :
    generateQRString (.sms s)
      = .ok ("sms:" ++ s.countryCode ++ stripNonDigits s.phone
          ++ (if s.message = "" then ""
              else "?body=" ++ encodeURIComponent s.message)) := by
  simp only [generateQRString]
  rw [if_neg h]
  by_cases m : s.message = ""
  · rw [if_neg (not_not_intro m), if_pos m]
  · rw [if_pos m, if_neg m]

/-- C5 witness: the spec example
`encode(sms, countryCode +1, phone (555) 123-4567, empty message)`. -/
theorem C5_sms_payload_witness :
    ("(555) 123-4567" : String) ≠ ""
      ∧ generateQRString (.sms ⟨"+1", "(555) 123-4567", ""⟩)
          = .ok "sms:+15551234567" := by
  refine ⟨by decide, ?_⟩
  rw [C5_sms_payload ⟨"+1", "(555) 123-4567", ""⟩ (by decide)]
  decide

/-- C6: for every wifi record, an empty ssid yields the empty payload, and
a non-empty ssid yields exactly the `WIFI:` string with encryption, ssid,
password and the `true`/`false` hidden flag interpolated verbatim. -/
theorem C6_wifi_payload (w : WiFiData) :
    (w.ssid = "" → generateQRString (.wifi w) = .ok "")
      ∧ (w.ssid ≠ "" → generateQRString (.wifi w)
          = .ok ("WIFI:T:" ++ w.encryption ++ ";S:" ++ w.ssid ++ ";P:"
              ++ w.password ++ ";H:" ++ (if w.hidden then "true" else "false")
              ++ ";;")) := by
  constructor
  · intro h
    simp only [generateQRString]
    rw [if_pos h]
  · intro h
    simp only [generateQRString]
    rw [if_neg h]

/-- C6 witness: the spec example for
`encode(wifi, Net, pw, WPA, not hidden)`. -/
theorem C6_wifi_payload_witness :
    ("Net" : String) ≠ ""
      ∧ generateQRString (.wifi ⟨"Net", "pw", "WPA", false⟩)
          = .ok "WIFI:T:WPA;S:Net;P:pw;H:false;;" := by
  refine ⟨by decide, ?_⟩
  rw [(C6_wifi_payload ⟨"Net", "pw", "WPA", false⟩).2 (by decide)]
  decide

/-- C8: the options record handed to the rendering collaborator carries
the payload string as its data field when non-empty, and the single-space
placeholder when empty. -/
theorem C8_data_placeholder (o : QROptionsState) :
    (o.data ≠ "" → (buildQROptions o).data = o.data)
      ∧ (o.data = "" → (buildQROptions o).data = " ") := by
  constructor
  · intro h
    unfold buildQROptions
    exact if_neg h
  · intro h
    unfold buildQROptions
    exact if_pos h

/-- C8 witness: both branches at concrete states. -/
theorem C8_data_placeholder_witness :
    (("x" : String) ≠ ""
      ∧ (buildQROptions { defaultQROptionsState with data := "x" }).data = "x")
      ∧ (("" : String) = "" ∧ (buildQROptions defaultQROptionsState).data = " ") :=
  ⟨⟨by decide, (C8_data_placeholder { defaultQROptionsState with data := "x" }).1 (by decide)⟩,
    ⟨rfl, (C8_data_placeholder defaultQROptionsState).2 rfl⟩⟩

/-- C10: the update effect caps the data length (UTF-16 code units, the
JavaScript `.length`) at 2953/2331/1663/1273 for levels L/M/Q/H; above the
cap the content-too-long error is set and the rendering collaborator is
not updated, at or below it the update proceeds with the freshly built
options. -/
theorem C10_length_guard (o : QROptionsState) :
    maxLengthFor "L" = 2953 ∧ maxLengthFor "M" = 2331
      ∧ maxLengthFor "Q" = 1663 ∧ maxLengthFor "H" = 1273
      ∧ (utf16Length o.data > maxLengthFor o.errorCorrectionLevel →
          updateEffect o
            = .tooLong (maxLengthFor o.errorCorrectionLevel) o.errorCorrectionLevel)
      ∧ (utf16Length o.data ≤ maxLengthFor o.errorCorrectionLevel →
          updateEffect o = .updated (buildQROptions o)) := by
  refine ⟨by decide, by decide, by decide, by decide, ?_, ?_⟩
  · intro h
    unfold updateEffect
    rw [if_pos h]
  · intro h
    unfold updateEffect
    rw [if_neg (by omega)]

/-- C10 witness: a one-character payload at level M is under the cap and
the update proceeds. -/
theorem C10_length_guard_witness :
    utf16Length "x" ≤ maxLengthFor "M"
      ∧ updateEffect { defaultQROptionsState with data := "x" }
          = .updated (buildQROptions { defaultQROptionsState with data := "x" }) :=
  ⟨by decide,
    (C10_length_guard { defaultQROptionsState with data := "x" }).2.2.2.2.2 (by decide)⟩

/-- C2 counterexample: the vcard kind with every field empty returns the
minimal vCard, not the empty string, refuting the claim quantified over
all kinds including vcard. -/
theorem C2_empty_cex :
    generateQRString (defaultData .vcard)
        = .ok "BEGIN:VCARD\nVERSION:3.0\nEND:VCARD"
      ∧ ("BEGIN:VCARD\nVERSION:3.0\nEND:VCARD" : String) ≠ "" := by
  constructor
  · decide
  · decide

/-- C2 amended: every kind other than vcard returns the empty payload on a
record whose required fields are empty, whatever the other fields hold;
the vcard kind on the all-empty record returns the minimal vCard. -/
theorem C2_empty_payload :
    (∀ d : QRTemplateData, requiredEmpty d → kindOf d ≠ .vcard →
        generateQRString d = .ok "")
      ∧ generateQRString (defaultData .vcard)
          = .ok "BEGIN:VCARD\nVERSION:3.0\nEND:VCARD" := by
  constructor
  · intro d hr hk
    cases d with
    | vcard v => exact absurd rfl hk
    | location l =>
        simp only [requiredEmpty] at hr
        simp only [generateQRString]
        rw [if_pos (Or.inl hr.1)]
    | calendar c =>
        simp only [requiredEmpty] at hr
        simp only [generateQRString]
        rw [if_pos hr]
    | url u =>
        simp only [requiredEmpty] at hr
        simp [generateQRString, hr]
    | wifi w =>
        simp only [requiredEmpty] at hr
        simp only [generateQRString]
        rw [if_pos hr]
    | email e =>
        simp only [requiredEmpty] at hr
        simp only [generateQRString]
        rw [if_pos hr]
    | sms s =>
        simp only [requiredEmpty] at hr
        simp only [generateQRString]
        rw [if_pos hr]
    | phone p =>
        simp only [requiredEmpty] at hr
        simp only [generateQRString]
        rw [if_pos hr]
    | whatsapp w =>
        simp only [requiredEmpty] at hr
        simp only [generateQRString]
        rw [if_pos hr]
    | telegram t =>
        simp only [requiredEmpty] at hr
        simp only [generateQRString]
        rw [if_pos hr]
    | instagram s =>
        simp only [requiredEmpty] at hr
        simp only [generateQRString]
        rw [if_pos hr]
    | twitter s =>
        simp only [requiredEmpty] at hr
        simp only [generateQRString]
        rw [if_pos hr]
    | linkedin s =>
        simp only [requiredEmpty] at hr
        simp only [generateQRString]
        rw [if_pos hr]
    | tiktok s =>
        simp only [requiredEmpty] at hr
        simp only [generateQRString]
        rw [if_pos hr]
    | youtube s =>
        simp only [requiredEmpty] at hr
        simp only [generateQRString]
        rw [if_pos hr]
    | facebook s =>
        simp only [requiredEmpty] at hr
        simp only [generateQRString]
        rw [if_pos hr]
    | snapchat s =>
        simp only [requiredEmpty] at hr
        simp only [generateQRString]
        rw [if_pos hr]
    | paypal p =>
        simp only [requiredEmpty] at hr
        simp only [generateQRString]
        rw [if_pos hr]
    | bitcoin b =>
        simp only [requiredEmpty] at hr
        simp only [generateQRString]
        rw [if_pos hr]
  · decide

/-- C2 amended witness: the wifi kind with an empty ssid but other fields
set still encodes to the empty payload. -/
theorem C2_empty_payload_witness :
    requiredEmpty (.wifi ⟨"", "pw", "WEP", true⟩)
      ∧ kindOf (.wifi ⟨"", "pw", "WEP", true⟩) ≠ .vcard
      ∧ generateQRString (.wifi ⟨"", "pw", "WEP", true⟩) = .ok "" :=
  ⟨by decide, by decide,
    C2_empty_payload.1 (.wifi ⟨"", "pw", "WEP", true⟩) (by decide) (by decide)⟩

/-- C3 counterexample: an email record with empty subject and body still
carries the `?subject=` and `&body=` query segments, and the vcard `FN`
line is trimmed (the interpolated `FN:Jane ` becomes `FN:Jane`), so an
optional segment appears although its backing field is empty and a field
is not used verbatim. -/
theorem C3_segments_cex :
    (generateQRString (.email ⟨"a@b.c", "", ""⟩) = .ok "mailto:a@b.c?subject=&body="
      ∧ ("mailto:a@b.c?subject=&body=" : String) ≠ "mailto:a@b.c")
      ∧ (generateQRString (.vcard ⟨"Jane", "", "", "", "", "", "", "", "", "", "", ""⟩)
            = .ok "BEGIN:VCARD\nVERSION:3.0\nN:;Jane;;;\nFN:Jane\nEND:VCARD"
        ∧ ("FN:Jane" : String) ≠ "FN:Jane ") := by
  refine ⟨⟨?_, ?_⟩, ?_, ?_⟩
  · decide
  · decide
  · decide
  · decide

/-- C3 amended: every optional line or segment appears in the payload
exactly when its backing field is non-empty, with the fields interpolated
verbatim apart from the specified digit- and `@`-stripping, with two
exceptions the code forces: the email encoder always emits both the
`?subject=` and `&body=` query segments even when their fields are empty,
and the vcard `FN` line is whitespace-trimmed after interpolation.  The
statement covers every conditional line or suffix of the encoder: the
vCard lines, the calendar `LOCATION:`/`DESCRIPTION:` lines, the sms
`?body=`, location `?q=`, whatsapp `?text=` and telegram `?text=`
suffixes, the paypal `/amount` and currency suffixes, and the bitcoin
`amount`/`label` parameters. -/
theorem C3_optional_segments :
    (∀ e : EmailData, e.email ≠ "" →
        generateQRString (.email e)
          = .ok ("mailto:" ++ e.email ++ "?subject="
              ++ encodeURIComponent e.subject ++ "&body="
              ++ encodeURIComponent e.body))
      ∧ (∀ v : VCardData,
          generateQRString (.vcard v) = .ok (joinSep "\n" (vcardLinesSpec v)))
      ∧ (∀ c : CalendarData, calendarBase c
          = ["BEGIN:VCALENDAR", "VERSION:2.0", "BEGIN:VEVENT", "SUMMARY:" ++ c.title]
            ++ (if c.location = "" then [] else ["LOCATION:" ++ c.location])
            ++ (if c.description = "" then [] else ["DESCRIPTION:" ++ c.description]))
      ∧ (∀ s : SMSData, s.phone ≠ "" →
          generateQRString (.sms s)
            = .ok ("sms:" ++ s.countryCode ++ stripNonDigits s.phone
                ++ (if s.message = "" then ""
                    else "?body=" ++ encodeURIComponent s.message)))
      ∧ (∀ l : LocationData, l.latitude ≠ "" → l.longitude ≠ "" →
          generateQRString (.location l)
            = .ok ("geo:" ++ l.latitude ++ "," ++ l.longitude
                ++ (if l.label = "" then ""
                    else "?q=" ++ encodeURIComponent l.label)))
      ∧ (∀ w : WhatsAppData, w.phone ≠ "" →
          generateQRString (.whatsapp w)
            = .ok ("https://wa.me/" ++ stripNonDigits (w.countryCode ++ w.phone)
                ++ (if w.message = "" then ""
                    else "?text=" ++ encodeURIComponent w.message)))
      ∧ (∀ t : TelegramData, t.username ≠ "" →
          generateQRString (.telegram t)
            = .ok ("https://t.me/" ++ removeFirstAt t.username
                ++ (if t.message = "" then ""
                    else "?text=" ++ encodeURIComponent t.message)))
      ∧ (∀ p : PayPalData, p.username ≠ "" →
          generateQRString (.paypal p)
            = .ok ("https://paypal.me/" ++ p.username
                ++ (if p.amount = "" then ""
                    else "/" ++ p.amount
                      ++ (if p.currency = "" then "" else p.currency))))
      ∧ (∀ b : BitcoinData, b.address ≠ "" →
          generateQRString (.bitcoin b)
            = .ok ("bitcoin:" ++ b.address ++ bitcoinQuerySpec b)) := by
  refine ⟨?_, ?_, ?_, ?_, ?_, ?_, ?_, ?_, ?_⟩
  · intro e h
    simp only [generateQRString]
    rw [if_neg h]
  · intro v
    simp only [generateQRString]
    rw [vcardLines_eq_spec]
  · intro c
    unfold calendarBase
    by_cases h1 : c.location = "" <;> by_cases h2 : c.description = "" <;>
      simp [h1, h2]
  · intro s h
    simp only [generateQRString]
    rw [if_neg h]
    by_cases m : s.message = ""
    · rw [if_neg (not_not_intro m), if_pos m]
    · rw [if_pos m, if_neg m]
  · intro l h1 h2
    simp only [generateQRString]
    rw [if_neg (not_or.mpr ⟨h1, h2⟩)]
    by_cases hl : l.label = ""
    · rw [if_neg (not_not_intro hl), if_pos hl]
    · rw [if_pos hl, if_neg hl]
  · intro w h
    simp only [generateQRString]
    rw [if_neg h]
    by_cases m : w.message = ""
    · rw [if_neg (not_not_intro m), if_pos m]
    · rw [if_pos m, if_neg m]
  · intro t h
    simp only [generateQRString]
    rw [if_neg h]
    by_cases m : t.message = ""
    · rw [if_neg (not_not_intro m), if_pos m, String.append_empty]
    · rw [if_pos m, if_neg m, String.append_assoc]
  · intro p h
    simp only [generateQRString]
    rw [if_neg h]
    by_cases a : p.amount = ""
    · rw [if_neg (not_not_intro a), if_pos a]
    · rw [if_pos a, if_neg a]
      by_cases cu : p.currency = ""
      · rw [if_neg (not_not_intro cu), if_pos cu]
      · rw [if_pos cu, if_neg cu]
  · intro b h
    simp only [generateQRString]
    rw [if_neg h]
    unfold bitcoinURL bitcoinParams bitcoinQuerySpec
    have hq1 : ∀ x : String, ("?" : String) ++ ("amount=" ++ x) = "?amount=" ++ x := by
      intro x
      rw [← String.append_assoc]
      congr 1
    have hq2 : ∀ x : String, ("?" : String) ++ ("label=" ++ x) = "?label=" ++ x := by
      intro x
      rw [← String.append_assoc]
      congr 1
    have hq3 : ∀ x : String, ("&" : String) ++ ("label=" ++ x) = "&label=" ++ x := by
      intro x
      rw [← String.append_assoc]
      congr 1
    by_cases a : b.amount = "" <;> by_cases l : b.label = "" <;>
      simp [a, l, joinSep, String.append_assoc, hq1, hq2, hq3]

/-- C3 amended witness: the spec example
`encode(bitcoin, address bc1q, amount 0.001, empty label)`. -/
theorem C3_optional_segments_witness :
    ("bc1q" : String) ≠ ""
      ∧ generateQRString (.bitcoin ⟨"bc1q", "0.001", ""⟩)
          = .ok "bitcoin:bc1q?amount=0.001" := by
  refine ⟨by decide, ?_⟩
  rw [C3_optional_segments.2.2.2.2.2.2.2.2 ⟨"bc1q", "0.001", ""⟩ (by decide)]
  decide

/-- C7 counterexample: an instagram username with an interior `@` and no
leading `@` is not used verbatim; the first `@` occurrence is removed
wherever it sits. -/
theorem C7_at_cex :
    generateQRString (.instagram ⟨"a@b"⟩) = .ok "https://instagram.com/ab"
      ∧ ("https://instagram.com/ab" : String) ≠ "https://instagram.com/a@b" := by
  constructor
  · decide
  · decide

/-- C7 amended: telegram, instagram, twitter, tiktok and youtube use the
username with its first `@` occurrence removed inside their fixed URL
templates (so a leading `@` is stripped, a username without any `@` is
verbatim, but an interior `@` is removed too), while linkedin, facebook
and snapchat use the username verbatim. -/
theorem C7_at_policy :
    (∀ t : TelegramData, t.username ≠ "" →
        generateQRString (.telegram t)
          = .ok ("https://t.me/" ++ removeFirstAt t.username
              ++ (if t.message = "" then ""
                  else "?text=" ++ encodeURIComponent t.message)))
      ∧ (∀ u : SocialMediaData, u.username ≠ "" →
          generateQRString (.instagram u)
              = .ok ("https://instagram.com/" ++ removeFirstAt u.username)
            ∧ generateQRString (.twitter u)
              = .ok ("https://twitter.com/" ++ removeFirstAt u.username)
            ∧ generateQRString (.tiktok u)
              = .ok ("https://tiktok.com/@" ++ removeFirstAt u.username)
            ∧ generateQRString (.youtube u)
              = .ok ("https://youtube.com/@" ++ removeFirstAt u.username)
            ∧ generateQRString (.linkedin u)
              = .ok ("https://linkedin.com/in/" ++ u.username)
            ∧ generateQRString (.facebook u)
              = .ok ("https://facebook.com/" ++ u.username)
            ∧ generateQRString (.snapchat u)
              = .ok ("https://snapchat.com/add/" ++ u.username))
      ∧ (∀ s : String, (∀ c ∈ s.toList, c ≠ '@') → removeFirstAt s = s)
      ∧ (∀ s : String, removeFirstAt ("@" ++ s) = s) := by
  refine ⟨?_, ?_, ?_, ?_⟩
  · intro t h
    simp only [generateQRString]
    rw [if_neg h]
    by_cases m : t.message = ""
    · rw [if_neg (not_not_intro m), if_pos m, String.append_empty]
    · rw [if_pos m, if_neg m, String.append_assoc]
  · intro u h
    refine ⟨?_, ?_, ?_, ?_, ?_, ?_, ?_⟩ <;>
      (simp only [generateQRString]; rw [if_neg h])
  · intro s h
    unfold removeFirstAt
    rw [removeFirstChar_not_mem '@' s.toList h]
    exact mk_toList s
  · intro s
    unfold removeFirstAt
    have hl : ("@" ++ s).toList = '@' :: s.toList := by
      simp [String.toList, String.data_append]
    rw [hl]
    unfold removeFirstChar
    rw [if_pos rfl]
    exact mk_toList s

/-- C7 amended witness: a leading-`@` username is stripped in the
instagram template. -/
theorem C7_at_policy_witness :
    ("@user" : String) ≠ ""
      ∧ generateQRString (.instagram ⟨"@user"⟩)
          = .ok "https://instagram.com/user" := by
  refine ⟨by decide, ?_⟩
  rw [(C7_at_policy.2.1 ⟨"@user"⟩ (by decide)).1]
  decide

/-- C1 counterexample: a calendar record with a non-empty title, the
all-day flag set and the non-empty but unparseable end date `x` makes the
encoder throw (the `toISOString` RangeError), refuting termination for an
arbitrary non-empty end date string. -/
theorem C1_throw_cex :
    generateQRString (.calendar ⟨"event", "", "", "2025-01-10", "x", true⟩)
      = .error "Invalid time value" := by decide

/-- C1 amended: the encoder returns a payload string (possibly empty) and
never throws, for every kind and record, except that the calendar all-day
branch requires a non-empty end date to have a parseable date-only part;
an unparseable one makes `toISOString` throw. -/
theorem C1_total (d : QRTemplateData) (h : calendarDatesOk d) :
    ∃ s : String, generateQRString d = .ok s := by
  cases d
  case calendar c =>
    simp only [generateQRString]
    by_cases ht : c.title = ""
    · rw [if_pos ht]
      exact ⟨"", rfl⟩
    · rw [if_neg ht]
      by_cases ha : c.allDay = true
      · obtain ⟨L, hL⟩ : ∃ L, calendarLines c = .ok L := by
          unfold calendarLines
          rw [if_pos ha]
          by_cases he : c.endDate = ""
          · rw [if_pos he]
            exact ⟨_, rfl⟩
          · rw [if_neg he]
            unfold calendarDatesOk at h
            obtain ⟨p, hp⟩ := Option.isSome_iff_exists.mp (h ht ha he)
            have hn : getNextDay c.endDate
                = .ok (String.mk ((isoDateChars (nextDate p)).filter (fun c => c != '-'))) := by
              unfold getNextDay
              rw [if_neg he, hp]
            rw [hn]
            exact ⟨_, rfl⟩
        rw [hL]
        exact ⟨_, rfl⟩
      · obtain ⟨L, hL⟩ : ∃ L, calendarLines c = .ok L := by
          unfold calendarLines
          rw [if_neg ha]
          exact ⟨_, rfl⟩
        rw [hL]
        exact ⟨_, rfl⟩
  all_goals exact ⟨_, rfl⟩

/-- C1 amended witness: a well-formed all-day calendar record satisfies
the date precondition and encodes without throwing. -/
theorem C1_total_witness :
    calendarDatesOk (.calendar ⟨"T", "", "", "2025-01-10", "2025-01-10", true⟩)
      ∧ ∃ s : String,
          generateQRString (.calendar ⟨"T", "", "", "2025-01-10", "2025-01-10", true⟩)
            = .ok s :=
  ⟨by decide, C1_total (.calendar ⟨"T", "", "", "2025-01-10", "2025-01-10", true⟩) (by decide)⟩

/-- A successfully produced calendar line list starts with the
`BEGIN:VCALENDAR` header. -/
theorem calendarLines_head (c : CalendarData) (L : List String)
    (h : calendarLines c = .ok L) : ∃ t, L = "BEGIN:VCALENDAR" :: t := by
  unfold calendarLines at h
  split at h
  · split at h
    · injection h with h
      exact ⟨_, h.symm⟩
    · split at h
      · exact absurd h (by simp)
      · injection h with h
        exact ⟨_, h.symm⟩
  · injection h with h
    exact ⟨_, h.symm⟩

/-- C9: for every kind other than url, a returned payload is either empty
or starts with the kind's fixed head string. -/
theorem C9_fixed_head (d : QRTemplateData) (hk : kindOf d ≠ .url) (s : String)
    (h : generateQRString d = .ok s) :
    s = "" ∨ ∃ r, s = schemeOf (kindOf d) ++ r := by
  cases d with
  | url u => exact absurd rfl hk
  | vcard v =>
      simp only [generateQRString] at h
      injection h with h
      right
      obtain ⟨tail, htl⟩ : ∃ tail, vcardLines v = "BEGIN:VCARD" :: tail := by
        have hb : (("BEGIN:VCARD" : String) != "") = true := by decide
        unfold vcardLines
        rw [List.filter_cons, if_pos hb]
        exact ⟨_, rfl⟩
      rw [← h, htl]
      exact joinSep_cons_ex "\n" _ tail
  | calendar c =>
      simp only [generateQRString] at h
      by_cases ht : c.title = ""
      · rw [if_pos ht] at h
        injection h with h
        exact Or.inl h.symm
      · rw [if_neg ht] at h
        right
        rcases hcl : calendarLines c with e | L
        · rw [hcl] at h
          exact absurd h (by simp)
        · rw [hcl] at h
          dsimp only at h
          injection h with h
          obtain ⟨t0, ht0⟩ := calendarLines_head c L hcl
          rw [← h, ht0]
          exact joinSep_cons_ex "\n" _ t0
  | wifi w =>
      simp only [generateQRString] at h
      injection h with h
      subst h
      by_cases hs : w.ssid = ""
      · rw [if_pos hs]
        exact Or.inl rfl
      · rw [if_neg hs]
        right
        simp only [String.append_assoc]
        exact ⟨_, rfl⟩
  | email e =>
      simp only [generateQRString] at h
      injection h with h
      subst h
      by_cases hs : e.email = ""
      · rw [if_pos hs]
        exact Or.inl rfl
      · rw [if_neg hs]
        right
        simp only [String.append_assoc]
        exact ⟨_, rfl⟩
  | sms s0 =>
      simp only [generateQRString] at h
      injection h with h
      subst h
      by_cases hs : s0.phone = ""
      · rw [if_pos hs]
        exact Or.inl rfl
      · rw [if_neg hs]
        right
        simp only [String.append_assoc]
        exact ⟨_, rfl⟩
  | phone p =>
      simp only [generateQRString] at h
      injection h with h
      subst h
      by_cases hs : p.phone = ""
      · rw [if_pos hs]
        exact Or.inl rfl
      · rw [if_neg hs]
        right
        simp only [String.append_assoc]
        exact ⟨_, rfl⟩
  | location l =>
      simp only [generateQRString] at h
      injection h with h
      subst h
      by_cases hs : l.latitude = "" ∨ l.longitude = ""
      · rw [if_pos hs]
        exact Or.inl rfl
      · rw [if_neg hs]
        right
        simp only [String.append_assoc]
        exact ⟨_, rfl⟩
  | whatsapp w =>
      simp only [generateQRString] at h
      injection h with h
      subst h
      by_cases hs : w.phone = ""
      · rw [if_pos hs]
        exact Or.inl rfl
      · rw [if_neg hs]
        right
        simp only [String.append_assoc]
        exact ⟨_, rfl⟩
  | telegram t =>
      simp only [generateQRString] at h
      injection h with h
      subst h
      by_cases hs : t.username = ""
      · rw [if_pos hs]
        exact Or.inl rfl
      · rw [if_neg hs]
        right
        by_cases hm : t.message ≠ ""
        · rw [if_pos hm]
          simp only [String.append_assoc]
          exact ⟨_, rfl⟩
        · rw [if_neg hm]
          exact ⟨_, rfl⟩
  | instagram u =>
      simp only [generateQRString] at h
      injection h with h
      subst h
      by_cases hs : u.username = ""
      · rw [if_pos hs]
        exact Or.inl rfl
      · rw [if_neg hs]
        exact Or.inr ⟨_, rfl⟩
  | twitter u =>
      simp only [generateQRString] at h
      injection h with h
      subst h
      by_cases hs : u.username = ""
      · rw [if_pos hs]
        exact Or.inl rfl
      · rw [if_neg hs]
        exact Or.inr ⟨_, rfl⟩
  | linkedin u =>
      simp only [generateQRString] at h
      injection h with h
      subst h
      by_cases hs : u.username = ""
      · rw [if_pos hs]
        exact Or.inl rfl
      · rw [if_neg hs]
        exact Or.inr ⟨_, rfl⟩
  | tiktok u =>
      simp only [generateQRString] at h
      injection h with h
      subst h
      by_cases hs : u.username = ""
      · rw [if_pos hs]
        exact Or.inl rfl
      · rw [if_neg hs]
        exact Or.inr ⟨_, rfl⟩
  | youtube u =>
      simp only [generateQRString] at h
      injection h with h
      subst h
      by_cases hs : u.username = ""
      · rw [if_pos hs]
        exact Or.inl rfl
      · rw [if_neg hs]
        exact Or.inr ⟨_, rfl⟩
  | facebook u =>
      simp only [generateQRString] at h
      injection h with h
      subst h
      by_cases hs : u.username = ""
      · rw [if_pos hs]
        exact Or.inl rfl
      · rw [if_neg hs]
        exact Or.inr ⟨_, rfl⟩
  | snapchat u =>
      simp only [generateQRString] at h
      injection h with h
      subst h
      by_cases hs : u.username = ""
      · rw [if_pos hs]
        exact Or.inl rfl
      · rw [if_neg hs]
        exact Or.inr ⟨_, rfl⟩
  | paypal p =>
      simp only [generateQRString] at h
      injection h with h
      subst h
      by_cases hs : p.username = ""
      · rw [if_pos hs]
        exact Or.inl rfl
      · rw [if_neg hs]
        right
        simp only [String.append_assoc]
        exact ⟨_, rfl⟩
  | bitcoin b =>
      simp only [generateQRString] at h
      injection h with h
      subst h
      by_cases hs : b.address = ""
      · rw [if_pos hs]
        exact Or.inl rfl
      · rw [if_neg hs]
        right
        unfold bitcoinURL
        simp only [String.append_assoc]
        exact ⟨_, rfl⟩

/-- C9 witness: the whatsapp payload of a concrete record starts with the
`https://wa.me/` head. -/
theorem C9_fixed_head_witness :
    kindOf (.whatsapp ⟨"+1", "555", "hi"⟩) ≠ .url
      ∧ generateQRString (.whatsapp ⟨"+1", "555", "hi"⟩)
          = .ok "https://wa.me/1555?text=hi"
      ∧ ("https://wa.me/1555?text=hi" = ""
          ∨ ∃ r, "https://wa.me/1555?text=hi"
              = schemeOf (kindOf (.whatsapp ⟨"+1", "555", "hi"⟩)) ++ r) :=
  ⟨by decide, by decide,
    C9_fixed_head (.whatsapp ⟨"+1", "555", "hi"⟩) (by decide)
      "https://wa.me/1555?text=hi" (by decide)⟩

/-- The calendar line list in the all-day configuration with both dates
present and a successful `getNextDay`. -/
theorem calendarLines_allDay (c : CalendarData) (n : String)
    (ha : c.allDay = true) (hs : c.startDate ≠ "") (he : c.endDate ≠ "")
    (hg : getNextDay c.endDate = .ok n) :
    calendarLines c
      = .ok (calendarBase c
          ++ ["DTSTART;VALUE=DATE:" ++ formatDateOnly c.startDate]
          ++ ["DTEND;VALUE=DATE:" ++ n]
          ++ ["END:VEVENT", "END:VCALENDAR"]) := by
  unfold calendarLines
  rw [if_pos ha, if_neg he, hg]
  dsimp only
  rw [if_pos hs]

/-- C4: for an all-day calendar record with non-empty title and start
date and a parseable end date, the payload is the newline-join of a line
list containing the `DTSTART;VALUE=DATE:` line holding the start date's
date-only part with dashes removed, and a `DTEND;VALUE=DATE:` line
holding the eight-digit rendering of a valid calendar date lying exactly
one day after the parsed end date. -/
theorem C4_allday_dates (c : CalendarData) (p : YMD)
    (ht : c.title ≠ "") (ha : c.allDay = true) (hs : c.startDate ≠ "")
    (hpe : parseDateOnly (datePart c.endDate) = some p)
    (hy : (nextDate p).year ≤ 9999) :
    ∃ L, calendarLines c = .ok L
      ∧ generateQRString (.calendar c) = .ok (joinSep "\n" L)
      ∧ ("DTSTART;VALUE=DATE:" ++ removeDashes (datePart c.startDate)) ∈ L
      ∧ ("DTEND;VALUE=DATE:" ++ yyyymmdd (nextDate p)) ∈ L
      ∧ validYMD (nextDate p)
      ∧ dayOrdinal (nextDate p) = dayOrdinal p + 1 := by
  have hval := parseDateOnly_valid hpe
  have he : c.endDate ≠ "" := by
    intro h0
    rw [h0] at hpe
    have h1 : parseDateOnly (datePart "") = none := by decide
    rw [h1] at hpe
    exact Option.noConfusion hpe
  have hg : getNextDay c.endDate = .ok (yyyymmdd (nextDate p)) := by
    unfold getNextDay
    rw [if_neg he, hpe]
    dsimp only
    rw [filter_dash_isoDateChars (nextDate p) hy]
  have hstart : formatDateOnly c.startDate = removeDashes (datePart c.startDate) := by
    unfold formatDateOnly
    rw [if_neg hs]
  have hcl := calendarLines_allDay c (yyyymmdd (nextDate p)) ha hs he hg
  rw [hstart] at hcl
  refine ⟨_, hcl, ?_, ?_, ?_, validYMD_nextDate p hval, dayOrdinal_nextDate p hval⟩
  · simp only [generateQRString]
    rw [if_neg ht, hcl]
  · simp [List.mem_append]
  · simp [List.mem_append]

/-- C4 witness: the spec example, start and end 2025-01-10, yielding
DTSTART 20250110 and DTEND 20250111. -/
theorem C4_allday_dates_witness :
    ("T" : String) ≠ ""
      ∧ parseDateOnly (datePart "2025-01-10") = some ⟨2025, 1, 10⟩
      ∧ (nextDate ⟨2025, 1, 10⟩).year ≤ 9999
      ∧ ∃ L, calendarLines ⟨"T", "", "", "2025-01-10", "2025-01-10", true⟩ = .ok L
          ∧ generateQRString (.calendar ⟨"T", "", "", "2025-01-10", "2025-01-10", true⟩)
              = .ok (joinSep "\n" L)
          ∧ ("DTSTART;VALUE=DATE:" ++ removeDashes (datePart "2025-01-10")) ∈ L
          ∧ ("DTEND;VALUE=DATE:" ++ yyyymmdd (nextDate ⟨2025, 1, 10⟩)) ∈ L
          ∧ validYMD (nextDate ⟨2025, 1, 10⟩)
          ∧ dayOrdinal (nextDate ⟨2025, 1, 10⟩) = dayOrdinal ⟨2025, 1, 10⟩ + 1 :=
  ⟨by decide, by decide, by decide,
    C4_allday_dates ⟨"T", "", "", "2025-01-10", "2025-01-10", true⟩ ⟨2025, 1, 10⟩
      (by decide) rfl (by decide) (by decide) (by decide)⟩

end QRBuilder
